import Mathlib

set_option linter.unusedVariables false

/-!
Shallow embedding of the thinkubator-rag query pipeline.

The embedded code:
- the direct-Supabase Next.js route (generateEmbedding, searchSupabase,
  generateAnswer, POST), from the unnamed route file;
- the proxying frontend route (callBackendAPI / callVercelPythonFunction,
  chunk transformation, POST) from src/frontend/src/app/api/query/route.ts;
- the chat-history sidebar session deletion handler (confirmDelete).

External HTTP calls are modelled by environment records carrying each
call outcome; the functions below reproduce the control flow of the
TypeScript source over those outcomes.
-/

namespace ThinkubatorRAG

/-- A JSON object of metadata entries, modelled as an association list. -/
abbrev Metadata := List (String × String)

/-- JavaScript a || b for an optional string: null, undefined and the
empty string are falsy, so they fall through to the default. -/
def jsOrStr : Option String → String → String
  | some s, d => if s = "" then d else s
  | none, d => d

/-- JavaScript m || emptyObject for optional metadata: null and undefined
fall through; an object is always truthy, even when empty. -/
def jsOrMeta : Option Metadata → Metadata
  | some m => m
  | none => []

/-- JavaScript truthiness of body.query when it holds an optional string:
absent and empty strings are falsy. -/
def jsTruthyStr : Option String → Bool
  | some s => s != ""
  | none => false

/-- A chunk as it appears in the route responses: a document text and a
metadata object. -/
structure Chunk where
  document : String
  metadata : Metadata
deriving Repr, DecidableEq

/-- A row of the document_embeddings table as returned by Supabase. -/
structure SupabaseRow where
  id : Nat
  content : Option String
  metadata : Option Metadata
deriving Repr, DecidableEq

/-- The mapping applied to each Supabase result row, on both the primary
and the fallback path: document = result.content || empty string,
metadata = result.metadata || empty object. -/
def rowToChunk (r : SupabaseRow) : Chunk :=
  { document := jsOrStr r.content "", metadata := jsOrMeta r.metadata }

/-- Outcomes of the external calls made by searchSupabase: whether the
credentials are configured, the result of the match_documents RPC, and
the result of the direct table query used as fallback (the table rows it
would read, and whether that HTTP request succeeds). -/
structure SearchEnv where
  credsPresent : Bool
  rpcResult : Except String (List SupabaseRow)
  fallbackHttpOk : Bool
  table : List SupabaseRow
  fallbackErrText : String

/-- searchSupabase from the direct-Supabase route: primary path posts to
the match_documents RPC; if that response is not ok, falls back to a
direct GET on document_embeddings with limit k; if that also fails,
throws. Both success paths map rows through rowToChunk and return a bare
chunk list: the output type records no degraded-mode information. -/
def searchSupabase (env : SearchEnv) (queryEmbedding : List Int) (k : Nat) :
    Except String (List Chunk) :=
  if !env.credsPresent then
    .error "Supabase credentials not configured"
  else
    match env.rpcResult with
    | .ok results => .ok (results.map rowToChunk)
    | .error _ =>
        if env.fallbackHttpOk then
          .ok ((env.table.take k).map rowToChunk)
        else
          .error ("Supabase search error: " ++ env.fallbackErrText)

/-- Outcomes of the external embedding call: whether GEMINI_API_KEY is
configured and what the fetch to the embedding endpoint returns
(an HTTP error status, or the embedding values). -/
structure EmbedEnv where
  apiKeyPresent : Bool
  fetchResult : Except Nat (List Int)

/-- generateEmbedding from the direct-Supabase route: throws when the
API key is missing or the response is not ok, otherwise returns the
embedding values. -/
def generateEmbedding (env : EmbedEnv) (text : String) : Except String (List Int) :=
  if !env.apiKeyPresent then
    .error "GEMINI_API_KEY not configured"
  else
    match env.fetchResult with
    | .error status => .error ("Embedding API error: " ++ toString status)
    | .ok values => .ok values

/-- Outcomes of the external generation call: whether GEMINI_API_KEY is
configured and what the fetch to the generation endpoint returns
(an HTTP error status, or the generated answer text). -/
structure GenEnv where
  apiKeyPresent : Bool
  fetchResult : Except Nat String

/-- generateAnswer from the direct-Supabase route: builds a prompt from
the query and the chunk documents, calls the generation endpoint, and
throws when the key is missing or the response is not ok. The answer
text itself comes from the external call. -/
def generateAnswer (env : GenEnv) (query : String) (retrievedChunks : List Chunk) :
    Except String String :=
  if !env.apiKeyPresent then
    .error "GEMINI_API_KEY not configured"
  else
    match env.fetchResult with
    | .error status => .error ("Generation API error: " ++ toString status)
    | .ok text => .ok text

/-- Body of an HTTP response produced by the routes: either an error
object with a detail field, or the query result object. The
errorFallback component is an Option so that the field can be absent,
as it is on every non-fallback response. -/
inductive ResponseBody where
  | detail (msg : String)
  | result (answer : String) (chunks : List Chunk) (sessionId : Option String)
      (errorFallback : Option Bool)
deriving Repr, DecidableEq

/-- An HTTP response: status code plus JSON body. NextResponse.json
defaults the status to 200 when none is given. -/
structure HttpResponse where
  status : Nat
  body : ResponseBody
deriving Repr, DecidableEq

/-- The answer field of a result body (empty-ish defaults on a detail body). -/
def respAnswer : ResponseBody → String
  | .result a _ _ _ => a
  | .detail _ => ""

/-- The chunks field of a result body. -/
def respChunks : ResponseBody → List Chunk
  | .result _ cs _ _ => cs
  | .detail _ => []

/-- The session_id field of a result body. -/
def respSessionId : ResponseBody → Option String
  | .result _ _ sid _ => sid
  | .detail _ => none

/-- The error_fallback field of a result body; none means the field is
absent from the JSON. -/
def respErrorFallback : ResponseBody → Option Bool
  | .result _ _ _ ef => ef
  | .detail _ => none

/-- External pipeline stages invoked during one POST handler run. A
generateCall entry records the chunk list the generation stage was
invoked with. -/
inductive PipelineCall where
  | embedCall
  | searchCall
  | generateCall (chunks : List Chunk)
deriving Repr, DecidableEq

/-- The parsed request body: body.query may be absent or a string. -/
structure JsBody where
  query : Option String
deriving Repr, DecidableEq

/-- All external outcomes one POST run of the direct-Supabase route can
observe: the request-body parse result and the three stage environments. -/
structure RagPostEnv where
  bodyParse : Except String JsBody
  embed : EmbedEnv
  search : SearchEnv
  gen : GenEnv

/-- The canned answer returned when no documents are found. -/
def insufficientAnswer : String :=
  "I do not have enough information to answer your question. No relevant documents were found."

/-- Text of the mock fallback answer before the quoted query. -/
def mockAnswerPre : String :=
  "I encountered an issue accessing the document database for your query \""

/-- Text of the mock fallback answer after the quoted query. -/
def mockAnswerSuffix : String :=
  "\". This appears to be a temporary technical issue. Please try again later or contact support if the problem persists."

/-- The templated apologetic answer naming the original query. -/
def mockAnswer (query : String) : String :=
  mockAnswerPre ++ query ++ mockAnswerSuffix

/-- The mock fallback response: templated answer, empty chunks, null
session id, error_fallback set to true, HTTP status 200. -/
def mockResponse (query : String) : HttpResponse :=
  { status := 200, body := .result (mockAnswer query) [] none (some true) }

/-- The inner try block of the direct-Supabase POST handler: embed the
query, search Supabase with k = 5, short-circuit on zero documents, else
generate an answer; any stage failure is caught and answered with the
mock fallback response. The second component is the trace of stages
invoked. -/
def ragPipeline (env : RagPostEnv) (query : String) : HttpResponse × List PipelineCall :=
  match generateEmbedding env.embed query with
  | .error _ => (mockResponse query, [.embedCall])
  | .ok queryEmbedding =>
      match searchSupabase env.search queryEmbedding 5 with
      | .error _ => (mockResponse query, [.embedCall, .searchCall])
      | .ok similarDocs =>
          if similarDocs.length = 0 then
            ({ status := 200, body := .result insufficientAnswer [] none none },
             [.embedCall, .searchCall])
          else
            match generateAnswer env.gen query similarDocs with
            | .error _ =>
                (mockResponse query,
                 [.embedCall, .searchCall, .generateCall similarDocs])
            | .ok answer =>
                ({ status := 200,
                   body := .result answer similarDocs none none },
                 [.embedCall, .searchCall, .generateCall similarDocs])

/-- The POST handler of the direct-Supabase route: parse the body (a
parse failure is caught by the outer catch, which returns a 500 whose
detail embeds the error message); reject a falsy query with a 400
before any stage runs; otherwise run the pipeline. -/
def ragPost (env : RagPostEnv) : HttpResponse × List PipelineCall :=
  match env.bodyParse with
  | .error e =>
      ({ status := 500, body := .detail ("API route error: " ++ e) }, [])
  | .ok body =>
      if jsTruthyStr body.query then
        ragPipeline env (body.query.getD "")
      else
        ({ status := 400, body := .detail "Query is required" }, [])

/-- A chunk as delivered by the backend to the proxying frontend route:
all three fields are optional in the BackendChunk interface. -/
structure BackendChunk where
  content : Option String
  document : Option String
  metadata : Option Metadata
deriving Repr, DecidableEq

/-- A backend /query response as consumed by the frontend route. -/
structure BackendResponse where
  answer : String
  chunks : List BackendChunk
  sessionId : Option String
deriving Repr, DecidableEq

/-- The per-chunk transformation of the frontend route:
document = chunk.content || chunk.document || empty string,
metadata = chunk.metadata || empty object. -/
def transformChunk (c : BackendChunk) : Chunk :=
  { document := jsOrStr c.content (jsOrStr c.document ""),
    metadata := jsOrMeta c.metadata }

/-- Claim wording for the document field of a transformed chunk, for
comparison with transformChunk: content when present, otherwise the
document field, otherwise the empty string — presence alone decides. -/
def claimedDocument (c : BackendChunk) : String :=
  match c.content with
  | some s => s
  | none =>
      match c.document with
      | some s => s
      | none => ""

/-- External outcomes of one POST run of the proxying frontend route:
the body parse result and the outcome of the backend call (either
callBackendAPI or callVercelPythonFunction, both returning a
BackendResponse or throwing). -/
structure FrontendEnv where
  bodyParse : Except String JsBody
  backendResult : Except String BackendResponse

/-- The POST handler of src/frontend/src/app/api/query/route.ts: parse
the body (outer catch gives a 500 embedding the message), 400 on a falsy
query, then call the backend; on success transform every chunk, on any
backend failure answer with the mock fallback response. -/
def frontendPost (env : FrontendEnv) : HttpResponse :=
  match env.bodyParse with
  | .error e =>
      { status := 500, body := .detail ("API route error: " ++ e) }
  | .ok body =>
      if jsTruthyStr body.query then
        match env.backendResult with
        | .error _ => mockResponse (body.query.getD "")
        | .ok br =>
            { status := 200,
              body := .result br.answer (br.chunks.map transformChunk)
                br.sessionId none }
      else
        { status := 400, body := .detail "Query is required" }

/-- A chat session summary as held by the sidebar. -/
structure ChatSession where
  id : String
  preview : String
  createdAt : String
deriving Repr, DecidableEq

/-- The sidebar component state touched by confirmDelete. -/
structure SidebarState where
  sessions : List ChatSession
  errorMsg : Option String
  deletingSessionId : Option String
  showDeleteConfirm : Option String
deriving Repr, DecidableEq

/-- Outcome of the DELETE fetch inside confirmDelete: a thrown network
error, or an HTTP response with its ok flag, status and statusText. -/
structure DeleteFetchResp where
  ok : Bool
  status : Nat
  statusText : String
deriving Repr, DecidableEq

/-- confirmDelete from the chat-history sidebar: mark the session as
deleting and close the confirm dialog; on a successful DELETE filter the
session out of the list; on a thrown error or a non-ok response set the
error message and leave the list untouched; finally clear the deleting
marker. -/
def confirmDelete (st : SidebarState) (sessionId : String)
    (fetchResult : Except String DeleteFetchResp) : SidebarState :=
  let st1 := { st with deletingSessionId := some sessionId,
                       showDeleteConfirm := none }
  let st2 :=
    match fetchResult with
    | .error msg =>
        { st1 with errorMsg := some ("Failed to delete conversation: " ++ msg) }
    | .ok resp =>
        if resp.ok then
          let kept := st1.sessions.filter (fun (s : ChatSession) => s.id != sessionId)
          { st1 with sessions := kept }
        else
          let msg := "Failed to delete conversation: Failed to delete session: "
            ++ toString resp.status ++ " " ++ resp.statusText
          { st1 with errorMsg := some msg }
  { st2 with deletingSessionId := none }

/-! Helper lemmas shared by several claims. -/

/-- Unrecoverable failure of the pipeline on query q: the embedding call
throws, or the search throws (both its paths failing), or the search
succeeds with documents but the generation call throws. -/
def pipelineFails (env : RagPostEnv) (q : String) : Prop :=
  (∃ e, generateEmbedding env.embed q = .error e) ∨
  (∃ emb e, generateEmbedding env.embed q = .ok emb ∧
    searchSupabase env.search emb 5 = .error e) ∨
  (∃ emb docs e, generateEmbedding env.embed q = .ok emb ∧
    searchSupabase env.search emb 5 = .ok docs ∧ docs ≠ [] ∧
    generateAnswer env.gen q docs = .error e)

theorem ragPost_eq_pipeline (env : RagPostEnv) (b : JsBody) (q : String)
    (hb : env.bodyParse = .ok b) (hq : b.query = some q) (hqne : q ≠ "") :
    ragPost env = ragPipeline env q := by
  simp [ragPost, hb, hq, jsTruthyStr, hqne]

theorem ragPipeline_fail (env : RagPostEnv) (q : String)
    (h : pipelineFails env q) : (ragPipeline env q).1 = mockResponse q := by
  rcases h with ⟨e, he⟩ | ⟨emb, e, hemb, hs⟩ | ⟨emb, docs, e, hemb, hs, hne, hg⟩
  · simp [ragPipeline, he]
  · simp [ragPipeline, hemb, hs]
  · have hlen : docs.length ≠ 0 := by
      simpa [List.length_eq_zero] using hne
    simp [ragPipeline, hemb, hs, hg, hlen]

theorem ragPipeline_status (env : RagPostEnv) (q : String) :
    (ragPipeline env q).1.status = 200 := by
  unfold ragPipeline
  split
  · rfl
  · split
    · rfl
    · split
      · rfl
      · split
        · rfl
        · rfl

/-- A default search environment whose RPC succeeds with no rows. -/
def searchEnvOkEmpty : SearchEnv :=
  { credsPresent := true, rpcResult := .ok [], fallbackHttpOk := true,
    table := [], fallbackErrText := "" }

/-- A generation environment whose call succeeds. -/
def genEnvOk : GenEnv :=
  { apiKeyPresent := true, fetchResult := .ok "An answer." }

/-- An embedding environment whose call fails with HTTP 503. -/
def embedEnvFail : EmbedEnv :=
  { apiKeyPresent := true, fetchResult := .error 503 }

/-- An embedding environment whose call succeeds. -/
def embedEnvOk : EmbedEnv :=
  { apiKeyPresent := true, fetchResult := .ok [1, 0, 0] }

/-! Claim C1. -/

/-- C1: for every POST request whose body parses and whose query is
non-empty, an unrecoverable pipeline failure (embedding, search or
generation throwing) yields the mock fallback response: the fixed
apologetic answer containing the literal query text, an empty chunks
list, and error_fallback set to true. -/
theorem c1_error_fallback_response (env : RagPostEnv) (b : JsBody) (q : String)
    (hb : env.bodyParse = .ok b) (hq : b.query = some q) (hqne : q ≠ "")
    (hfail : pipelineFails env q) :
    (ragPost env).1 = mockResponse q ∧
    (ragPost env).1.body = .result (mockAnswer q) [] none (some true) ∧
    ∃ pre suf, mockAnswer q = pre ++ q ++ suf := by
  have h1 : (ragPost env).1 = mockResponse q := by
    rw [ragPost_eq_pipeline env b q hb hq hqne]
    exact ragPipeline_fail env q hfail
  refine ⟨h1, ?_, ⟨mockAnswerPre, mockAnswerSuffix, rfl⟩⟩
  rw [h1]; rfl

/-- Concrete input for claim C1: the embedding call fails. -/
def envC1 : RagPostEnv :=
  { bodyParse := .ok { query := some "What is circular economy?" },
    embed := embedEnvFail, search := searchEnvOkEmpty, gen := genEnvOk }

theorem c1_error_fallback_response_witness :
    (ragPost envC1).1 = mockResponse "What is circular economy?" ∧
    (ragPost envC1).1.body =
      .result (mockAnswer "What is circular economy?") [] none (some true) ∧
    mockAnswer "What is circular economy?" =
      mockAnswerPre ++ "What is circular economy?" ++ mockAnswerSuffix := by
  have h := c1_error_fallback_response envC1
    { query := some "What is circular economy?" }
    "What is circular economy?" rfl rfl (by decide) (Or.inl ⟨_, rfl⟩)
  exact ⟨h.1, h.2.1, rfl⟩

/-! Claim C2. -/

/-- A concrete stored row used to exercise the search paths. -/
def c2Row : SupabaseRow :=
  { id := 1, content := some "Circular economy keeps materials in use.",
    metadata := some [("document_name", "report.pdf")] }

/-- Search environment whose primary RPC fails and whose fallback
succeeds, reading c2Row from the table. -/
def c2FallbackEnv : SearchEnv :=
  { credsPresent := true, rpcResult := .error "404 match_documents not found",
    fallbackHttpOk := true, table := [c2Row], fallbackErrText := "" }

/-- Search environment whose primary RPC succeeds with the same row. -/
def c2PrimaryEnv : SearchEnv :=
  { credsPresent := true, rpcResult := .ok [c2Row],
    fallbackHttpOk := true, table := [c2Row], fallbackErrText := "" }

/-- C2: at a failing input (the primary RPC errors, the fallback path
answers) the fallback result of searchSupabase is identical to a
primary-path result: the function returns a bare chunk list carrying no
degraded-mode flag, so the caller cannot observe that the fallback ran.
The only record of degradation in the source is a console.log line. -/
theorem c2_fallback_sets_no_degraded_flag :
    searchSupabase c2FallbackEnv [1, 0] 5 = searchSupabase c2PrimaryEnv [1, 0] 5 ∧
    searchSupabase c2FallbackEnv [1, 0] 5 =
      .ok [{ document := "Circular economy keeps materials in use.",
             metadata := [("document_name", "report.pdf")] }] := by
  constructor <;> rfl

/-! Claim C3. -/

/-- Five stored rows, standing for five chunks above the threshold. -/
def c3Rows : List SupabaseRow :=
  [{ id := 1, content := some "chunk one", metadata := some [] },
   { id := 2, content := some "chunk two", metadata := none },
   { id := 3, content := some "chunk three", metadata := some [("page_number", "3")] },
   { id := 4, content := some "chunk four", metadata := none },
   { id := 5, content := some "chunk five", metadata := none }]

/-- Concrete input for claim C3: every stage succeeds and the RPC
returns five rows. -/
def envC3 : RagPostEnv :=
  { bodyParse := .ok { query := some "What is circular economy?" },
    embed := embedEnvOk,
    search := { credsPresent := true, rpcResult := .ok c3Rows,
                fallbackHttpOk := true, table := [], fallbackErrText := "" },
    gen := { apiKeyPresent := true,
             fetchResult := .ok "Circular economy is a production model." } }

/-- C3 counterexample: with five chunks above the threshold the route
answers 200 with five chunks and the generated answer, yet session_id is
null — the route hard-codes session_id to null on every success — which
refutes the non-null session_id the claim demands. -/
theorem c3_counterexample :
    (ragPost envC3).1.status = 200 ∧
    (respChunks (ragPost envC3).1.body).length = 5 ∧
    respAnswer (ragPost envC3).1.body = "Circular economy is a production model." ∧
    respSessionId (ragPost envC3).1.body = none :=
  ⟨rfl, rfl, rfl, rfl⟩

/-- C3 amended: for a POST request whose retrieval finds five chunks and
whose generation call returns an answer string, the response is a 200
whose chunks list has length five, whose answer is that string, and
whose session_id is null. -/
theorem c3_amended_five_chunks (env : RagPostEnv) (b : JsBody) (q : String)
    (emb : List Int) (docs : List Chunk) (ans : String)
    (hb : env.bodyParse = .ok b) (hq : b.query = some q) (hqne : q ≠ "")
    (hemb : generateEmbedding env.embed q = .ok emb)
    (hs : searchSupabase env.search emb 5 = .ok docs)
    (hlen : docs.length = 5)
    (hg : generateAnswer env.gen q docs = .ok ans) :
    (ragPost env).1 = { status := 200, body := .result ans docs none none } ∧
    (respChunks (ragPost env).1.body).length = 5 ∧
    respAnswer (ragPost env).1.body = ans ∧
    respSessionId (ragPost env).1.body = none := by
  have hne : docs ≠ [] := by
    intro h
    rw [h] at hlen
    exact absurd hlen (by decide)
  have h1 : (ragPost env).1 = { status := 200, body := .result ans docs none none } := by
    rw [ragPost_eq_pipeline env b q hb hq hqne]
    simp [ragPipeline, hemb, hs, hg, hne]
  refine ⟨h1, ?_, ?_, ?_⟩ <;> rw [h1]
  · simpa [respChunks] using hlen
  · rfl
  · rfl

theorem c3_amended_five_chunks_witness :
    (ragPost envC3).1 =
      { status := 200,
        body := .result "Circular economy is a production model."
          (c3Rows.map rowToChunk) none none } ∧
    (respChunks (ragPost envC3).1.body).length = 5 ∧
    respAnswer (ragPost envC3).1.body = "Circular economy is a production model." ∧
    respSessionId (ragPost envC3).1.body = none :=
  c3_amended_five_chunks envC3 { query := some "What is circular economy?" }
    "What is circular economy?" [1, 0, 0] (c3Rows.map rowToChunk)
    "Circular economy is a production model."
    rfl rfl (by decide) rfl rfl rfl rfl

/-! Claim C4. -/

/-- Concrete input for claim C4: the body parses and the query is the
empty string. -/
def envC4 : RagPostEnv :=
  { bodyParse := .ok { query := some "" },
    embed := embedEnvOk, search := searchEnvOkEmpty, gen := genEnvOk }

/-- C4 counterexample: an empty query is answered with HTTP 400, but the
detail string is capitalized Query is required, not the lowercase
query is required the claim states. -/
theorem c4_counterexample :
    (ragPost envC4).1 = { status := 400, body := .detail "Query is required" } ∧
    (ragPost envC4).2 = [] ∧
    ResponseBody.detail "Query is required" ≠ ResponseBody.detail "query is required" :=
  ⟨rfl, rfl, by decide⟩

/-- C4 amended: for every POST request whose body parses and whose query
is falsy (absent or empty), the response is HTTP 400 with detail
Query is required, and no pipeline stage is invoked (the stage trace is
empty). -/
theorem c4_amended_empty_query_rejected (env : RagPostEnv) (b : JsBody)
    (hb : env.bodyParse = .ok b) (hq : jsTruthyStr b.query = false) :
    (ragPost env).1 = { status := 400, body := .detail "Query is required" } ∧
    (ragPost env).2 = [] := by
  constructor <;> simp [ragPost, hb, hq]

theorem c4_amended_empty_query_rejected_witness :
    (ragPost envC4).1 = { status := 400, body := .detail "Query is required" } ∧
    (ragPost envC4).2 = [] :=
  c4_amended_empty_query_rejected envC4 { query := some "" } rfl (by decide)

/-! Claim C5. -/

theorem searchSupabase_fallback (env : SearchEnv) (emb : List Int) (k : Nat)
    (hcreds : env.credsPresent = true) (e : String)
    (hrpc : env.rpcResult = .error e) (hfb : env.fallbackHttpOk = true) :
    searchSupabase env emb k = .ok ((env.table.take k).map rowToChunk) := by
  simp [searchSupabase, hcreds, hrpc, hfb]

theorem ragPipeline_success (env : RagPostEnv) (q : String) (emb : List Int)
    (docs : List Chunk) (ans : String)
    (hemb : generateEmbedding env.embed q = .ok emb)
    (hs : searchSupabase env.search emb 5 = .ok docs)
    (hne : docs ≠ [])
    (hg : generateAnswer env.gen q docs = .ok ans) :
    ragPipeline env q =
      ({ status := 200, body := .result ans docs none none },
       [.embedCall, .searchCall, .generateCall docs]) := by
  simp [ragPipeline, hemb, hs, hg, hne]

theorem ragPipeline_insufficient (env : RagPostEnv) (q : String) (emb : List Int)
    (hemb : generateEmbedding env.embed q = .ok emb)
    (hs : searchSupabase env.search emb 5 = .ok []) :
    ragPipeline env q =
      ({ status := 200, body := .result insufficientAnswer [] none none },
       [.embedCall, .searchCall]) := by
  simp [ragPipeline, hemb, hs]

/-- C5: for every query embedding and every k, when the primary RPC path
of searchSupabase fails and the fallback direct query succeeds, the
fallback returns at most k chunks; and a request in that situation with
working embedding and generation completes as a normal response: status
200, no error_fallback field, and at most five chunks (the k the route
passes). -/
theorem c5_fallback_retrieval_normal (env : RagPostEnv) (b : JsBody) (q : String)
    (emb : List Int) (e : String) (ans : String)
    (hb : env.bodyParse = .ok b) (hq : b.query = some q) (hqne : q ≠ "")
    (hemb : generateEmbedding env.embed q = .ok emb)
    (hcreds : env.search.credsPresent = true)
    (hrpc : env.search.rpcResult = .error e)
    (hfb : env.search.fallbackHttpOk = true)
    (hgkey : env.gen.apiKeyPresent = true)
    (hgen : env.gen.fetchResult = .ok ans) :
    (∀ k, ∃ chunks, searchSupabase env.search emb k = .ok chunks ∧
      chunks.length ≤ k) ∧
    (ragPost env).1.status = 200 ∧
    respErrorFallback (ragPost env).1.body = none ∧
    (respChunks (ragPost env).1.body).length ≤ 5 := by
  have hsearch : ∀ k, searchSupabase env.search emb k =
      .ok ((env.search.table.take k).map rowToChunk) :=
    fun k => searchSupabase_fallback env.search emb k hcreds e hrpc hfb
  have hlen : ∀ k, ((env.search.table.take k).map rowToChunk).length ≤ k := by
    intro k
    rw [List.length_map, List.length_take]
    exact min_le_left _ _
  have hganswer : generateAnswer env.gen q
      ((env.search.table.take 5).map rowToChunk) = .ok ans := by
    simp [generateAnswer, hgkey, hgen]
  have hpost : ragPost env = ragPipeline env q :=
    ragPost_eq_pipeline env b q hb hq hqne
  refine ⟨fun k => ⟨_, hsearch k, hlen k⟩, ?_⟩
  rw [hpost]
  by_cases hnil : (env.search.table.take 5).map rowToChunk = []
  · have hs5 : searchSupabase env.search emb 5 = .ok [] := by
      rw [hsearch 5, hnil]
    rw [ragPipeline_insufficient env q emb hemb hs5]
    exact ⟨rfl, rfl, by simp [respChunks]⟩
  · rw [ragPipeline_success env q emb ((env.search.table.take 5).map rowToChunk)
      ans hemb (hsearch 5) hnil hganswer]
    refine ⟨rfl, rfl, ?_⟩
    show ((env.search.table.take 5).map rowToChunk).length ≤ 5
    exact hlen 5

/-- Concrete input for claim C5: the RPC fails, the fallback succeeds
with one table row, and embedding and generation work. -/
def envC5 : RagPostEnv :=
  { bodyParse := .ok { query := some "What is circular economy?" },
    embed := embedEnvOk,
    search := { credsPresent := true, rpcResult := .error "500 internal",
                fallbackHttpOk := true, table := [c2Row], fallbackErrText := "" },
    gen := genEnvOk }

theorem c5_fallback_retrieval_normal_witness :
    (ragPost envC5).1.status = 200 ∧
    respErrorFallback (ragPost envC5).1.body = none ∧
    (respChunks (ragPost envC5).1.body).length ≤ 5 :=
  (c5_fallback_retrieval_normal envC5 { query := some "What is circular economy?" }
    "What is circular economy?" [1, 0, 0] "500 internal" "An answer."
    rfl rfl (by decide) rfl rfl rfl rfl rfl rfl).2

/-! Claim C6. -/

theorem ragPipeline_generateCall_nonempty (env : RagPostEnv) (q : String)
    (chs : List Chunk)
    (h : PipelineCall.generateCall chs ∈ (ragPipeline env q).2) : chs ≠ [] := by
  unfold ragPipeline at h
  split at h
  · simp at h
  · split at h
    · simp at h
    · split at h
      · simp at h
      · rename_i docs hlen
        rw [List.length_eq_zero] at hlen
        split at h <;>
          · simp at h
            subst h
            exact hlen

/-- C6: whenever the search returns zero chunks on a validated request,
the route answers with the canned insufficient-information response and
the generation stage never runs; and, in any run whatsoever, the
generation stage is never invoked with an empty chunk list. -/
theorem c6_no_generation_without_chunks (env : RagPostEnv) :
    (∀ b q emb, env.bodyParse = .ok b → b.query = some q → q ≠ "" →
      generateEmbedding env.embed q = .ok emb →
      searchSupabase env.search emb 5 = .ok [] →
      (ragPost env).1 =
        { status := 200, body := .result insufficientAnswer [] none none } ∧
      ∀ chs, PipelineCall.generateCall chs ∉ (ragPost env).2) ∧
    (∀ chs, PipelineCall.generateCall chs ∈ (ragPost env).2 → chs ≠ []) := by
  constructor
  · intro b q emb hb hq hqne hemb hs
    have hpost : ragPost env = ragPipeline env q :=
      ragPost_eq_pipeline env b q hb hq hqne
    have hpipe : ragPipeline env q =
        ({ status := 200, body := .result insufficientAnswer [] none none },
         [.embedCall, .searchCall]) := by
      simp [ragPipeline, hemb, hs]
    rw [hpost, hpipe]
    exact ⟨rfl, by intro chs; simp⟩
  · intro chs h
    unfold ragPost at h
    split at h
    · simp at h
    · split at h
      · exact ragPipeline_generateCall_nonempty env _ chs h
      · simp at h

/-- Concrete input for claim C6: embedding succeeds and the RPC returns
zero rows. -/
def envC6 : RagPostEnv :=
  { bodyParse := .ok { query := some "What is circular economy?" },
    embed := embedEnvOk, search := searchEnvOkEmpty, gen := genEnvOk }

theorem c6_no_generation_without_chunks_witness :
    (ragPost envC6).1 =
      { status := 200, body := .result insufficientAnswer [] none none } ∧
    PipelineCall.generateCall [] ∉ (ragPost envC6).2 := by
  have h := (c6_no_generation_without_chunks envC6).1
    { query := some "What is circular economy?" } "What is circular economy?"
    [1, 0, 0] rfl rfl (by decide) rfl rfl
  exact ⟨h.1, h.2 []⟩

/-! Claim C7. -/

/-- Concrete failing input for claim C7: the request body fails to
parse with one message. -/
def envC7a : RagPostEnv :=
  { bodyParse := .error "Unexpected token < in JSON at position 0",
    embed := embedEnvOk, search := searchEnvOkEmpty, gen := genEnvOk }

/-- Concrete failing input for claim C7: the request body fails to
parse with a different message. -/
def envC7b : RagPostEnv :=
  { bodyParse := .error "Unexpected end of JSON input",
    embed := embedEnvOk, search := searchEnvOkEmpty, gen := genEnvOk }

/-- C7 counterexample: two failing requests whose underlying errors
differ produce different response bodies, and the raw internal error
message appears verbatim in the body the caller receives: the outer
catch of the route embeds the parse error text in a 500 detail. -/
theorem c7_counterexample :
    (ragPost envC7a).1.status = 500 ∧ (ragPost envC7b).1.status = 500 ∧
    (ragPost envC7a).1.body =
      .detail ("API route error: " ++ "Unexpected token < in JSON at position 0") ∧
    (ragPost envC7a).1.body ≠ (ragPost envC7b).1.body :=
  ⟨rfl, rfl, rfl, by decide⟩

/-- C7 amended: for every request that passes validation (body parses,
query truthy) and then fails anywhere inside the pipeline, the response
is the fixed templated apology determined by the query alone: two such
runs with the same query but different underlying failures produce
identical responses. Requests whose body fails to parse are excluded:
for them the route returns a 500 whose detail embeds the raw error
message. -/
theorem c7_amended_pipeline_failures_templated (env1 env2 : RagPostEnv)
    (b1 b2 : JsBody) (q : String)
    (hb1 : env1.bodyParse = .ok b1) (hq1 : b1.query = some q)
    (hb2 : env2.bodyParse = .ok b2) (hq2 : b2.query = some q) (hqne : q ≠ "")
    (hf1 : pipelineFails env1 q) (hf2 : pipelineFails env2 q) :
    (ragPost env1).1 = (ragPost env2).1 ∧
    (ragPost env1).1 = mockResponse q := by
  have e1 : (ragPost env1).1 = mockResponse q := by
    rw [ragPost_eq_pipeline env1 b1 q hb1 hq1 hqne]
    exact ragPipeline_fail env1 q hf1
  have e2 : (ragPost env2).1 = mockResponse q := by
    rw [ragPost_eq_pipeline env2 b2 q hb2 hq2 hqne]
    exact ragPipeline_fail env2 q hf2
  exact ⟨e1.trans e2.symm, e1⟩

/-- Concrete input for the amended C7: the embedding call fails. -/
def envC7w1 : RagPostEnv :=
  { bodyParse := .ok { query := some "What is circular economy?" },
    embed := { apiKeyPresent := true, fetchResult := .error 429 },
    search := searchEnvOkEmpty, gen := genEnvOk }

/-- Concrete input for the amended C7: retrieval succeeds with one
chunk and the generation call fails. -/
def envC7w2 : RagPostEnv :=
  { bodyParse := .ok { query := some "What is circular economy?" },
    embed := embedEnvOk,
    search := { credsPresent := true, rpcResult := .ok [c2Row],
                fallbackHttpOk := true, table := [], fallbackErrText := "" },
    gen := { apiKeyPresent := true, fetchResult := .error 500 } }

theorem c7_amended_pipeline_failures_templated_witness :
    (ragPost envC7w1).1 = (ragPost envC7w2).1 ∧
    (ragPost envC7w1).1 = mockResponse "What is circular economy?" :=
  c7_amended_pipeline_failures_templated envC7w1 envC7w2
    { query := some "What is circular economy?" }
    { query := some "What is circular economy?" }
    "What is circular economy?" rfl rfl rfl rfl (by decide)
    (Or.inl ⟨_, rfl⟩)
    (Or.inr (Or.inr ⟨[1, 0, 0], [rowToChunk c2Row], _, rfl, rfl,
      by decide, rfl⟩))

/-! Claim C8. -/

/-- C8: every request that passes validation is answered with HTTP
status 200, whatever the pipeline stages do; a non-200 status implies
the body failed to parse or the query was falsy. -/
theorem c8_validated_requests_get_200 (env : RagPostEnv) :
    (∀ b, env.bodyParse = .ok b → jsTruthyStr b.query = true →
      (ragPost env).1.status = 200) ∧
    ((ragPost env).1.status ≠ 200 →
      (∃ e, env.bodyParse = .error e) ∨
      ∃ b, env.bodyParse = .ok b ∧ jsTruthyStr b.query = false) := by
  constructor
  · intro b hb hq
    have : ragPost env = ragPipeline env (b.query.getD "") := by
      simp [ragPost, hb, hq]
    rw [this]
    exact ragPipeline_status env _
  · intro hne
    cases hb : env.bodyParse with
    | error e => exact .inl ⟨e, rfl⟩
    | ok b =>
        refine .inr ⟨b, rfl, ?_⟩
        by_contra hcon
        rw [Bool.not_eq_false] at hcon
        apply hne
        have : ragPost env = ragPipeline env (b.query.getD "") := by
          simp [ragPost, hb, hcon]
        rw [this]
        exact ragPipeline_status env _

/-- Concrete input for claim C8: a validated request on which every
pipeline stage fails (no API key at all, no credentials). -/
def envC8 : RagPostEnv :=
  { bodyParse := .ok { query := some "What is circular economy?" },
    embed := { apiKeyPresent := false, fetchResult := .error 0 },
    search := { credsPresent := false, rpcResult := .error "no creds",
                fallbackHttpOk := false, table := [], fallbackErrText := "x" },
    gen := { apiKeyPresent := false, fetchResult := .error 0 } }

theorem c8_validated_requests_get_200_witness :
    (ragPost envC8).1.status = 200 :=
  (c8_validated_requests_get_200 envC8).1
    { query := some "What is circular economy?" } rfl (by decide)

/-! Claim C9. -/

/-- Backend chunk whose content field is present but empty while the
document field carries text. -/
def c9Chunk : BackendChunk :=
  { content := some "", document := some "fallback text", metadata := none }

/-- Concrete input for claim C9: the backend answers successfully with
one chunk whose content is the empty string. -/
def envC9 : FrontendEnv :=
  { bodyParse := .ok { query := some "q" },
    backendResult := .ok { answer := "ans", chunks := [c9Chunk],
                           sessionId := some "s1" } }

/-- C9 counterexample: for a chunk whose content field is present but
empty, the transformed document is the document field text, while
content-when-present (the claim wording, captured by claimedDocument)
demands the empty string: JS truthiness, not presence, decides the
fallthrough. -/
theorem c9_counterexample :
    respChunks (frontendPost envC9).body =
      [{ document := "fallback text", metadata := [] }] ∧
    c9Chunk.content = some "" ∧
    claimedDocument c9Chunk = "" ∧
    ("fallback text" : String) ≠ "" :=
  ⟨rfl, rfl, rfl, by decide⟩

/-- C9 amended: in a successful response every chunk is the transform of
the corresponding backend chunk, whose document is the content field
when present and non-empty, otherwise the document field when present
and non-empty, otherwise the empty string, and whose metadata is the
metadata object when present and the empty object otherwise. -/
theorem c9_amended_chunk_fields (env : FrontendEnv) (b : JsBody)
    (br : BackendResponse)
    (hb : env.bodyParse = .ok b) (hq : jsTruthyStr b.query = true)
    (hbr : env.backendResult = .ok br) :
    respChunks (frontendPost env).body = br.chunks.map transformChunk ∧
    ∀ bc ∈ br.chunks,
      (∀ s, bc.content = some s → s ≠ "" → (transformChunk bc).document = s) ∧
      ((bc.content = none ∨ bc.content = some "") →
        ∀ t, bc.document = some t → t ≠ "" → (transformChunk bc).document = t) ∧
      ((bc.content = none ∨ bc.content = some "") →
        (bc.document = none ∨ bc.document = some "") →
        (transformChunk bc).document = "") ∧
      (∀ m, bc.metadata = some m → (transformChunk bc).metadata = m) ∧
      (bc.metadata = none → (transformChunk bc).metadata = []) := by
  constructor
  · simp [frontendPost, hb, hq, hbr, respChunks]
  · intro bc _
    refine ⟨?_, ?_, ?_, ?_, ?_⟩
    · intro s hcs hsne
      simp [transformChunk, jsOrStr, hcs, hsne]
    · rcases bc with ⟨c, d, m⟩
      rintro (hc | hc) t hd htne <;> subst hc <;> subst hd <;>
        simp [transformChunk, jsOrStr, htne]
    · rcases bc with ⟨c, d, m⟩
      rintro (hc | hc) (hd | hd) <;> subst hc <;> subst hd <;>
        simp [transformChunk, jsOrStr]
    · intro m hm
      simp [transformChunk, jsOrMeta, hm]
    · intro hm
      simp [transformChunk, jsOrMeta, hm]

/-- Backend chunk with all fields present and non-empty. -/
def c9GoodChunk : BackendChunk :=
  { content := some "real content", document := some "ignored",
    metadata := some [("document_name", "report.pdf")] }

/-- Concrete input for the amended C9. -/
def envC9w : FrontendEnv :=
  { bodyParse := .ok { query := some "q" },
    backendResult := .ok { answer := "ans", chunks := [c9GoodChunk],
                           sessionId := none } }

theorem c9_amended_chunk_fields_witness :
    respChunks (frontendPost envC9w).body = [c9GoodChunk].map transformChunk :=
  (c9_amended_chunk_fields envC9w { query := some "q" }
    { answer := "ans", chunks := [c9GoodChunk], sessionId := none }
    rfl (by decide) rfl).1

/-! Claim C10. -/

/-- C10: on a successful DELETE the sidebar session list becomes the
previous list with exactly the entries whose id equals the deleted id
removed — every surviving entry is an unchanged member of the previous
list, in order — and on a thrown error or a non-ok response the list is
left unchanged. -/
theorem c10_confirm_delete_frame (st : SidebarState) (sid : String)
    (fetchResult : Except String DeleteFetchResp) :
    (∀ resp, fetchResult = .ok resp → resp.ok = true →
      (confirmDelete st sid fetchResult).sessions =
        st.sessions.filter (fun s => s.id != sid) ∧
      (∀ s ∈ st.sessions, s.id ≠ sid →
        s ∈ (confirmDelete st sid fetchResult).sessions) ∧
      (∀ s ∈ (confirmDelete st sid fetchResult).sessions,
        s ∈ st.sessions ∧ s.id ≠ sid)) ∧
    (∀ msg, fetchResult = .error msg →
      (confirmDelete st sid fetchResult).sessions = st.sessions) ∧
    (∀ resp, fetchResult = .ok resp → resp.ok = false →
      (confirmDelete st sid fetchResult).sessions = st.sessions) := by
  refine ⟨?_, ?_, ?_⟩
  · intro resp hr hok
    have hsess : (confirmDelete st sid fetchResult).sessions =
        st.sessions.filter (fun s => s.id != sid) := by
      simp [confirmDelete, hr, hok]
    refine ⟨hsess, ?_, ?_⟩
    · intro s hs hne
      rw [hsess, List.mem_filter]
      exact ⟨hs, by simpa [bne_iff_ne] using hne⟩
    · intro s hs
      rw [hsess, List.mem_filter] at hs
      exact ⟨hs.1, by simpa [bne_iff_ne] using hs.2⟩
  · intro msg hr
    simp [confirmDelete, hr]
  · intro resp hr hok
    simp [confirmDelete, hr, hok]

/-- Two concrete sidebar sessions. -/
def c10Sessions : List ChatSession :=
  [{ id := "a", preview := "first question", createdAt := "2025-01-01" },
   { id := "b", preview := "second question", createdAt := "2025-01-02" }]

/-- Concrete sidebar state before the deletion. -/
def c10State : SidebarState :=
  { sessions := c10Sessions, errorMsg := none,
    deletingSessionId := none, showDeleteConfirm := none }

theorem c10_confirm_delete_frame_witness :
    (confirmDelete c10State "a"
        (.ok { ok := true, status := 200, statusText := "OK" })).sessions =
      c10State.sessions.filter (fun s => s.id != "a") :=
  ((c10_confirm_delete_frame c10State "a"
      (.ok { ok := true, status := 200, statusText := "OK" })).1
    { ok := true, status := 200, statusText := "OK" } rfl rfl).1

end ThinkubatorRAG
